import Mathlib

/-!
Verification of the numerical-differentiation engine of the repository
(single source file, the top-level React page component).

The engine is embedded shallowly:

* JavaScript numbers are modelled by `JsNum`: either a real number or the
  not-a-number sentinel `nan`.  Arithmetic propagates `nan` exactly as IEEE
  NaN propagates through JavaScript arithmetic; real-valued operands follow
  exact real arithmetic (the idealisation of floating point used throughout).
* The external expression library (parse / compile / evaluate and symbolic
  derivative) is abstracted by oracles: a parse outcome is
  `Option (ℝ → Option ℝ)` where the outer `none` models a parse failure and
  the inner `none` models a thrown evaluation error at one input.
* Component state (results list, convergence traces, error message) is the
  record `AppState`; the orchestrator `calculateDerivatives` and the sweeper
  `generateErrorData` are pure state transformers mirroring the source
  callbacks statement by statement.  List fields that feed only the plotting
  library (trace type, mode, dash style) are omitted.
-/

noncomputable section

/-- A JavaScript number: a real value or the not-a-number sentinel. -/
inductive JsNum where
  | num (r : ℝ)
  | nan

namespace JsNum

/-- Addition, propagating the not-a-number sentinel. -/
def add : JsNum → JsNum → JsNum
  | num a, num b => num (a + b)
  | _, _ => nan

/-- Subtraction, propagating the not-a-number sentinel. -/
def sub : JsNum → JsNum → JsNum
  | num a, num b => num (a - b)
  | _, _ => nan

/-- Multiplication, propagating the not-a-number sentinel. -/
def mul : JsNum → JsNum → JsNum
  | num a, num b => num (a * b)
  | _, _ => nan

/-- Division, propagating the not-a-number sentinel.  Division of two real
values follows the real-field convention; the engine never divides a real
value by an exact zero (the step size is user input guarded by the design,
and the relative-error formula is guarded by an explicit zero test). -/
def div : JsNum → JsNum → JsNum
  | num a, num b => num (a / b)
  | _, _ => nan

/-- Absolute value (the model of Math.abs), propagating the sentinel. -/
def abs : JsNum → JsNum
  | num a => num |a|
  | nan => nan

instance : Add JsNum := ⟨JsNum.add⟩

instance : Sub JsNum := ⟨JsNum.sub⟩

instance : Mul JsNum := ⟨JsNum.mul⟩

instance : Div JsNum := ⟨JsNum.div⟩

instance : DecidableEq JsNum := Classical.decEq _

@[simp] theorem num_add_num (a b : ℝ) : num a + num b = num (a + b) := rfl

@[simp] theorem num_sub_num (a b : ℝ) : num a - num b = num (a - b) := rfl

@[simp] theorem num_mul_num (a b : ℝ) : num a * num b = num (a * b) := rfl

@[simp] theorem num_div_num (a b : ℝ) : num a / num b = num (a / b) := rfl

@[simp] theorem nan_add (b : JsNum) : nan + b = nan := rfl

@[simp] theorem add_nan (a : JsNum) : a + nan = nan := by cases a <;> rfl

@[simp] theorem nan_sub (b : JsNum) : nan - b = nan := rfl

@[simp] theorem sub_nan (a : JsNum) : a - nan = nan := by cases a <;> rfl

@[simp] theorem nan_mul (b : JsNum) : nan * b = nan := rfl

@[simp] theorem mul_nan (a : JsNum) : a * nan = nan := by cases a <;> rfl

@[simp] theorem nan_div (b : JsNum) : nan / b = nan := rfl

@[simp] theorem div_nan (a : JsNum) : a / nan = nan := by cases a <;> rfl

@[simp] theorem abs_num (a : ℝ) : (num a).abs = num |a| := rfl

@[simp] theorem abs_nan : nan.abs = nan := rfl

end JsNum

/-- A finite-difference method descriptor, mirroring the source interface
`DifferentiationMethod` (name, formula string, truncation-order string,
display colour, and the estimator itself). -/
structure DifferentiationMethod where
  name : String
  formula : String
  order : String
  color : String
  calculate : (ℝ → JsNum) → ℝ → ℝ → JsNum

/-- Forward difference estimator, from the method registry of the source. -/
def forwardDiff (f : ℝ → JsNum) (x h : ℝ) : JsNum :=
  (f (x + h) - f x) / JsNum.num h

/-- Backward difference estimator, from the method registry of the source. -/
def backwardDiff (f : ℝ → JsNum) (x h : ℝ) : JsNum :=
  (f x - f (x - h)) / JsNum.num h

/-- Central difference estimator, from the method registry of the source. -/
def centralDiff (f : ℝ → JsNum) (x h : ℝ) : JsNum :=
  (f (x + h) - f (x - h)) / JsNum.num (2 * h)

/-- The fixed, ordered method registry `methods` of the source. -/
def methods : List DifferentiationMethod :=
  [{ name := "Forward Difference"
     formula := "(f(x+h) - f(x)) / h"
     order := "O(h)"
     color := "#3b82f6"
     calculate := forwardDiff },
   { name := "Backward Difference"
     formula := "(f(x) - f(x-h)) / h"
     order := "O(h)"
     color := "#ef4444"
     calculate := backwardDiff },
   { name := "Central Difference"
     formula := "(f(x+h) - f(x-h)) / (2h)"
     order := "O(h²)"
     color := "#10b981"
     calculate := centralDiff }]

/-- One row pushed into `newResults` by `calculateDerivatives`. -/
structure DifferentiationResult where
  method : String
  numerical : JsNum
  analytical : Option JsNum
  absoluteError : Option JsNum
  relativeError : Option JsNum
  formula : String
  order : String
  color : String

/-- One trace pushed by `generateErrorData` (plot-only fields omitted). -/
structure ErrorTrace where
  name : String
  color : String
  x : List ℝ
  y : List JsNum

/-- The component state touched by the embedded callbacks. -/
structure AppState where
  results : List DifferentiationResult
  errorData : List ErrorTrace
  functionError : String

/-- The try/catch wrapper returned by `parseFunction` and
`getAnalyticalDerivative`: evaluation is attempted, and a thrown error is
converted into the not-a-number sentinel. -/
def wrapEval (evalFn : ℝ → Option ℝ) : ℝ → JsNum := fun t =>
  match evalFn t with
  | some r => JsNum.num r
  | none => JsNum.nan

/-- `parseFunction`: on a successful parse, return the total NaN-wrapping
evaluator and leave the state alone; on a parse failure, set the error
message "Invalid function syntax" and return no function. -/
def parseFunction (parsed : Option (ℝ → Option ℝ)) (st : AppState) :
    Option (ℝ → JsNum) × AppState :=
  match parsed with
  | some evalFn => (some (wrapEval evalFn), st)
  | none => (none, { st with functionError := "Invalid function syntax" })

/-- `getAnalyticalDerivative`: symbolic differentiation plus compilation,
abstracted by the oracle `derived`; a failure anywhere in the try block
yields `null` (here `none`) with no state change. -/
def getAnalyticalDerivative (derived : Option (ℝ → Option ℝ)) :
    Option (ℝ → JsNum) :=
  match derived with
  | some dEval => some (wrapEval dEval)
  | none => none

/-- The per-method record built inside the `selectedMethods.forEach` loop of
`calculateDerivatives`.  The relative-error guard mirrors
`analyticalResult !== null && analyticalResult !== 0` (note that the NaN
sentinel passes the second test, exactly as in JavaScript). -/
def mkResult (f : ℝ → JsNum) (analyticalDerivative : Option (ℝ → JsNum))
    (x h : ℝ) (methodName : String) (method : DifferentiationMethod) :
    DifferentiationResult :=
  let numericalResult := method.calculate f x h
  let analyticalResult : Option JsNum :=
    match analyticalDerivative with
    | some g => some (g x)
    | none => none
  let error : Option JsNum :=
    match analyticalResult with
    | some a => some ((numericalResult - a).abs)
    | none => none
  let relativeError : Option JsNum :=
    match analyticalResult with
    | some a =>
        if a = JsNum.num 0 then none
        else some (((numericalResult - a) / a).abs * JsNum.num 100)
    | none => none
  { method := methodName
    numerical := numericalResult
    analytical := analyticalResult
    absoluteError := error
    relativeError := relativeError
    formula := method.formula
    order := method.order
    color := method.color }

/-- The orchestrator `calculateDerivatives`: parse (recording a parse error
in the state), attempt symbolic differentiation, bail out on a parse
failure, otherwise clear the error message and rebuild the results list,
one record per selected method name found in the registry. -/
def calculateDerivatives (parsed derived : Option (ℝ → Option ℝ))
    (x h : ℝ) (selectedMethods : List String) (st : AppState) : AppState :=
  let fs := parseFunction parsed st
  let analyticalDerivative := getAnalyticalDerivative derived
  match fs.1 with
  | none => fs.2
  | some f =>
    let st1 : AppState := { fs.2 with functionError := "" }
    let newResults := selectedMethods.filterMap (fun methodName =>
      (methods.find? (fun m => m.name == methodName)).map
        (mkResult f analyticalDerivative x h methodName))
    { st1 with results := newResults }

/-- The 20 logarithmically spaced step sizes of `generateErrorData`:
`Math.pow(10, -4 + i * 0.2)` for `i = 0, …, 19`. -/
def stepSizes : List ℝ :=
  (List.range 20).map (fun (i : ℕ) => (10 : ℝ) ^ ((-4 : ℝ) + (i : ℝ) * 0.2))

/-- The convergence sweeper `generateErrorData`: requires both a compiled
function and an analytical derivative; otherwise it returns with the state
as `parseFunction` left it.  On success it rebuilds the error traces, one
per selected method name found in the registry, with one absolute error per
step size. -/
def generateErrorData (parsed derived : Option (ℝ → Option ℝ)) (x : ℝ)
    (selectedMethods : List String) (st : AppState) : AppState :=
  let fs := parseFunction parsed st
  let analyticalDerivative := getAnalyticalDerivative derived
  match fs.1, analyticalDerivative with
  | some f, some g =>
    let traces := selectedMethods.filterMap (fun methodName =>
      (methods.find? (fun m => m.name == methodName)).map (fun method =>
        ({ name := methodName ++ " Error"
           color := method.color
           x := stepSizes
           y := stepSizes.map (fun h =>
             let numerical := method.calculate f x h
             let analytical := g x
             (numerical - analytical).abs) } : ErrorTrace)))
    { fs.2 with errorData := traces }
  | _, _ => fs.2

/-- A concrete previously computed result, used to exhibit state that a
recomputation cycle could be expected to wipe. -/
def sampleResult : DifferentiationResult :=
  { method := "Central Difference"
    numerical := JsNum.num 4
    analytical := some (JsNum.num 4)
    absoluteError := some (JsNum.num 0)
    relativeError := some (JsNum.num 0)
    formula := "(f(x+h) - f(x-h)) / (2h)"
    order := "O(h²)"
    color := "#10b981" }

/-- C1: the three registered estimators compute exactly the specified
formulas — forward `(f(x+h) - f(x)) / h`, backward `(f(x) - f(x-h)) / h`,
central `(f(x+h) - f(x-h)) / (2h)` — for every function, point and step,
and their declared truncation orders are O(h), O(h), O(h²), in registry
order. -/
theorem C1_method_set (f : ℝ → JsNum) (x h : ℝ) :
    methods.map (fun m => m.name) =
      ["Forward Difference", "Backward Difference", "Central Difference"] ∧
    methods.map (fun m => m.order) = ["O(h)", "O(h)", "O(h²)"] ∧
    methods.map (fun m => m.calculate f x h) =
      [(f (x + h) - f x) / JsNum.num h,
        (f x - f (x - h)) / JsNum.num h,
        (f (x + h) - f (x - h)) / JsNum.num (2 * h)] :=
  ⟨rfl, rfl, rfl⟩

/-- C9: over exact real arithmetic (a real-valued integrand, so the NaN
sentinel never arises), the central difference estimate is the arithmetic
mean of the forward and backward estimates. -/
theorem C9_central_is_mean (f : ℝ → ℝ) (x h : ℝ) :
    centralDiff (fun t => JsNum.num (f t)) x h =
      ((forwardDiff (fun t => JsNum.num (f t)) x h) +
        (backwardDiff (fun t => JsNum.num (f t)) x h)) / JsNum.num 2 := by
  simp only [centralDiff, forwardDiff, backwardDiff, JsNum.num_sub_num,
    JsNum.num_div_num, JsNum.num_add_num, JsNum.num.injEq]
  rw [div_add_div_same, div_div]
  ring_nf

/-- C3 counterexample: with a previously computed result in the state, a
parse failure leaves that result in place — the results list after the
failed cycle is the old nonempty list, not the empty one the claim
requires. -/
theorem C3_counterexample :
    (calculateDerivatives none none 1 (1 / 10) ["Central Difference"]
        { results := [sampleResult], errorData := [], functionError := "" }).results =
      [sampleResult] ∧
    [sampleResult] ≠ ([] : List DifferentiationResult) ∧
    (calculateDerivatives none none 1 (1 / 10) ["Central Difference"]
        { results := [sampleResult], errorData := [], functionError := "" }).functionError =
      "Invalid function syntax" :=
  ⟨rfl, by simp, rfl⟩

/-- C3 (amended): whenever compilation fails, the orchestrator
short-circuits — it produces no `DifferentiationResult` and surfaces the
parse-error report — but it leaves any previously computed numerical
results in place rather than wiping them. -/
theorem C3_parse_failure_no_wipe (derived : Option (ℝ → Option ℝ))
    (x h : ℝ) (sel : List String) (st : AppState) :
    (calculateDerivatives none derived x h sel st).results = st.results ∧
    (calculateDerivatives none derived x h sel st).errorData = st.errorData ∧
    (calculateDerivatives none derived x h sel st).functionError =
      "Invalid function syntax" :=
  ⟨rfl, rfl, rfl⟩

/-- C5: the convergence sweep produces series only when both compilation
and symbolic differentiation succeed; when the symbolic derivative is
unavailable (and likewise when the parse fails) the stored traces are left
exactly as they were — no series is produced for any method. -/
theorem C5_sweep_requires_reference (parsed derived : Option (ℝ → Option ℝ))
    (x : ℝ) (sel : List String) (st : AppState) :
    (generateErrorData parsed none x sel st).errorData = st.errorData ∧
    (generateErrorData none derived x sel st).errorData = st.errorData := by
  constructor
  · cases parsed <;> rfl
  · rfl

/-- C4: the sweep uses exactly 20 step sizes, the i-th being
`10 ^ (-4 + i * 0.2)`, and on success it yields, per selected method found
in the registry, a trace whose abscissae are those step sizes and whose
ordinates are the absolute errors `|numerical - analytical|` at the fixed
evaluation point, one per step size in the same order. -/
theorem C4_sweep_step_sizes (evalFn dEval : ℝ → Option ℝ) (x : ℝ)
    (sel : List String) (st : AppState) :
    stepSizes.length = 20 ∧
    stepSizes = (List.range 20).map (fun (i : ℕ) => (10 : ℝ) ^ ((-4 : ℝ) + (i : ℝ) * 0.2)) ∧
    (generateErrorData (some evalFn) (some dEval) x sel st).errorData =
      sel.filterMap (fun n =>
        (methods.find? (fun m => m.name == n)).map (fun m =>
          ({ name := n ++ " Error"
             color := m.color
             x := stepSizes
             y := stepSizes.map (fun h =>
               (m.calculate (wrapEval evalFn) x h - wrapEval dEval x).abs) } :
            ErrorTrace))) :=
  ⟨by rw [stepSizes, List.length_map, List.length_range], rfl, rfl⟩

/-- The method name recorded in each produced result is the selected name
itself, so projecting the rebuilt results list onto names recovers the
selection filtered to names present in the registry. -/
theorem map_method_filterMap (f : ℝ → JsNum) (ad : Option (ℝ → JsNum))
    (x h : ℝ) (sel : List String) :
    (sel.filterMap (fun n =>
        (methods.find? (fun m => m.name == n)).map (mkResult f ad x h n))).map
        (fun r => r.method) =
      sel.filter (fun n => (methods.find? (fun m => m.name == n)).isSome) := by
  induction sel with
  | nil => rfl
  | cons a l ih =>
    cases hf : methods.find? (fun m => m.name == a) with
    | none => simp [List.filterMap_cons, List.filter_cons, hf, ih]
    | some m => simp [List.filterMap_cons, List.filter_cons, hf, ih, mkResult]

/-- C6: given a successfully compiled expression, the orchestrator rebuilds
the results list with exactly one `DifferentiationResult` per selected name
found in the registry, in selection order, silently skipping unknown
names. -/
theorem C6_one_result_per_selected (evalFn : ℝ → Option ℝ)
    (derived : Option (ℝ → Option ℝ)) (x h : ℝ) (sel : List String)
    (st : AppState) :
    (calculateDerivatives (some evalFn) derived x h sel st).results =
      sel.filterMap (fun n =>
        (methods.find? (fun m => m.name == n)).map
          (mkResult (wrapEval evalFn) (getAnalyticalDerivative derived) x h n)) ∧
    ((calculateDerivatives (some evalFn) derived x h sel st).results).map
        (fun r => r.method) =
      sel.filter (fun n => (methods.find? (fun m => m.name == n)).isSome) :=
  ⟨rfl,
    map_method_filterMap (wrapEval evalFn) (getAnalyticalDerivative derived) x h sel⟩

/-- C7: when symbolic differentiation is impossible the differentiator
returns `null` rather than raising, and the orchestrator degrades
gracefully: every produced result carries the numerical estimate of its
method while the analytical value, absolute error and relative error are
all unavailable simultaneously. -/
theorem C7_graceful_degradation (evalFn : ℝ → Option ℝ) (x h : ℝ)
    (sel : List String) (st : AppState) :
    getAnalyticalDerivative none = none ∧
    (calculateDerivatives (some evalFn) none x h sel st).results =
      sel.filterMap (fun n =>
        (methods.find? (fun m => m.name == n)).map (fun m =>
          ({ method := n
             numerical := m.calculate (wrapEval evalFn) x h
             analytical := none
             absoluteError := none
             relativeError := none
             formula := m.formula
             order := m.order
             color := m.color } : DifferentiationResult))) :=
  ⟨rfl, rfl⟩

/-- Taking the absolute value after the division is the same as dividing
the absolute values: the relative-error expression of the source equals
the `|numerical - analytical| / |analytical| * 100` form of the design,
also when the numerator carries the NaN sentinel. -/
theorem abs_div_mul_hundred (v : JsNum) (a : ℝ) :
    ((v - JsNum.num a) / JsNum.num a).abs * JsNum.num 100 =
      (v - JsNum.num a).abs / (JsNum.num a).abs * JsNum.num 100 := by
  cases v with
  | num r =>
      simp only [JsNum.num_sub_num, JsNum.num_div_num, JsNum.abs_num,
        JsNum.num_mul_num, JsNum.num.injEq, abs_div]
  | nan =>
      simp only [JsNum.nan_sub, JsNum.nan_div, JsNum.abs_nan, JsNum.nan_mul,
        JsNum.abs_num]

/-- C2: whenever the analytical derivative evaluates to the real number `a`
at the evaluation point, the per-method record reports relative error
`|numerical - analytical| / |analytical| * 100` when `a` is nonzero, and
reports it as unavailable (`none`, never zero, never infinite) when `a` is
exactly zero. -/
theorem C2_relative_error (f g : ℝ → JsNum) (x h : ℝ) (n : String)
    (m : DifferentiationMethod) (a : ℝ) (hga : g x = JsNum.num a) :
    (mkResult f (some g) x h n m).relativeError =
      if a = 0 then none
      else some ((m.calculate f x h - JsNum.num a).abs /
        (JsNum.num a).abs * JsNum.num 100) := by
  have hmk : (mkResult f (some g) x h n m).relativeError =
      (if g x = JsNum.num 0 then none
       else some (((m.calculate f x h - g x) / g x).abs * JsNum.num 100)) := rfl
  rw [hmk, hga]
  by_cases h0 : a = 0
  · subst h0
    simp
  · rw [if_neg (by simpa using h0), if_neg h0]
    exact congrArg some (abs_div_mul_hundred (m.calculate f x h) a)

/-- A compiled function that is constantly zero, for concrete checks. -/
def fZero : ℝ → JsNum := fun _ => JsNum.num 0

/-- An analytical derivative that is constantly four, for concrete checks. -/
def gFour : ℝ → JsNum := fun _ => JsNum.num 4

/-- A concrete method descriptor (the central-difference entry) used to
instantiate universally quantified statements. -/
def wMethod : DifferentiationMethod :=
  { name := "Central Difference"
    formula := "(f(x+h) - f(x-h)) / (2h)"
    order := "O(h²)"
    color := "#10b981"
    calculate := centralDiff }

/-- C2 witness: with analytical value 4 and a constantly-zero compiled
function, the relative error reported for the central method is exactly
100 percent. -/
theorem C2_relative_error_witness :
    gFour 1 = JsNum.num 4 ∧
    (mkResult fZero (some gFour) 1 (1 / 10) "Central Difference"
        wMethod).relativeError = some (JsNum.num 100) := by
  refine ⟨rfl, (C2_relative_error fZero gFour 1 (1 / 10) "Central Difference"
    wMethod 4 rfl).trans ?_⟩
  rw [if_neg (by norm_num)]
  show some ((centralDiff fZero 1 (1 / 10) - JsNum.num 4).abs /
      (JsNum.num 4).abs * JsNum.num 100) = some (JsNum.num 100)
  simp only [centralDiff, fZero, JsNum.num_sub_num, JsNum.num_div_num,
    JsNum.abs_num, JsNum.num_mul_num, JsNum.num.injEq]
  norm_num

/-- C8: the function handed out by a successful compilation is a total map
from reals to JavaScript numbers (so in this model no call can throw), and
at every input where the underlying evaluation throws, it returns the
not-a-number sentinel. -/
theorem C8_evaluation_failure_is_nan (evalFn : ℝ → Option ℝ) (x : ℝ)
    (st : AppState) (hx : evalFn x = none) :
    parseFunction (some evalFn) st = (some (wrapEval evalFn), st) ∧
    wrapEval evalFn x = JsNum.nan := by
  refine ⟨rfl, ?_⟩
  simp [wrapEval, hx]

/-- The evaluator of the expression `1/x`, which throws only at zero. -/
def evalRecip : ℝ → Option ℝ := fun t => if t = 0 then none else some (1 / t)

/-- C8 witness: the reciprocal evaluator fails at zero, and the compiled
wrapper returns the not-a-number sentinel there instead of throwing. -/
theorem C8_evaluation_failure_is_nan_witness :
    evalRecip 0 = none ∧
    (parseFunction (some evalRecip)
        { results := [], errorData := [], functionError := "" } =
      (some (wrapEval evalRecip),
        { results := [], errorData := [], functionError := "" }) ∧
      wrapEval evalRecip 0 = JsNum.nan) := by
  have h0 : evalRecip 0 = none := by simp [evalRecip]
  exact ⟨h0, C8_evaluation_failure_is_nan evalRecip 0
    { results := [], errorData := [], functionError := "" } h0⟩

/-- C10: when the symbolic derivative compiles but its evaluation fails at
the evaluation point, the wrapper yields the NaN sentinel there, the
guards (which test only for null and for exact zero) let it through, and
the reported analytical value, absolute error and relative error are all
NaN rather than being marked unavailable. -/
theorem C10_nan_reference_passes_guards (f : ℝ → JsNum)
    (dEval : ℝ → Option ℝ) (x h : ℝ) (n : String)
    (m : DifferentiationMethod) (hx : dEval x = none) :
    getAnalyticalDerivative (some dEval) = some (wrapEval dEval) ∧
    (mkResult f (some (wrapEval dEval)) x h n m).analytical =
      some JsNum.nan ∧
    (mkResult f (some (wrapEval dEval)) x h n m).absoluteError =
      some JsNum.nan ∧
    (mkResult f (some (wrapEval dEval)) x h n m).relativeError =
      some JsNum.nan := by
  have hnan : wrapEval dEval x = JsNum.nan := by simp [wrapEval, hx]
  refine ⟨rfl, ?_, ?_, ?_⟩
  · show some (wrapEval dEval x) = some JsNum.nan
    rw [hnan]
  · show some ((m.calculate f x h - wrapEval dEval x).abs) = some JsNum.nan
    rw [hnan, JsNum.sub_nan, JsNum.abs_nan]
  · show (if wrapEval dEval x = JsNum.num 0 then none
        else some (((m.calculate f x h - wrapEval dEval x) /
          wrapEval dEval x).abs * JsNum.num 100)) = some JsNum.nan
    rw [hnan, if_neg (by simp)]
    rw [JsNum.sub_nan, JsNum.nan_div, JsNum.abs_nan, JsNum.nan_mul]

/-- A symbolic-derivative evaluator that throws at every input. -/
def dEvalNone : ℝ → Option ℝ := fun _ => none

/-- C10 witness: with a derivative evaluator that throws at the evaluation
point, the analytical value, absolute error and relative error of the
central method are all reported as the NaN sentinel. -/
theorem C10_nan_reference_witness :
    dEvalNone 1 = none ∧
    (mkResult fZero (some (wrapEval dEvalNone)) 1 (1 / 10)
        "Central Difference" wMethod).analytical = some JsNum.nan ∧
    (mkResult fZero (some (wrapEval dEvalNone)) 1 (1 / 10)
        "Central Difference" wMethod).absoluteError = some JsNum.nan ∧
    (mkResult fZero (some (wrapEval dEvalNone)) 1 (1 / 10)
        "Central Difference" wMethod).relativeError = some JsNum.nan :=
  ⟨rfl, (C10_nan_reference_passes_guards fZero dEvalNone 1 (1 / 10)
    "Central Difference" wMethod rfl).2⟩

end
